import Mathlib

/-!
Verification of the MCP calendar server's routing pipeline against its
specification.  Each Python function relevant to the checked properties is
shallowly embedded as an executable Lean definition; theorems at the end of
the file settle the individual spec claims.
-/

namespace MCPServer

/-! ## JSON value model

Python dictionaries / JSON payloads that flow through the router, the
idempotency cache, the audit logger and the calendar adapter are modelled by
the following value type.  Objects keep their key order (Python dicts are
ordered), so "same mapping, different enumeration order" is observable. -/

inductive Json where
  | null
  | bool (b : Bool)
  | num (n : Int)
  | str (s : String)
  | arr (elems : List Json)
  | obj (fields : List (String × Json))

/-! ## Transport auth (src/transport/auth.py)

Header and token values are modelled as `List Char` (Python `str` is a
sequence of characters); the configured `settings.bearer_token` is
`Optional[str]`, hence `Option (List Char)`. -/

/-- Python `str.split(sep)` for a one-character separator: splits on every
occurrence of `sep` and keeps empty fragments, `"".split(" ") == [""]`. -/
def pySplitChar (sep : Char) : List Char → List (List Char)
  | [] => [[]]
  | c :: rest =>
    let r := pySplitChar sep rest
    if c = sep then [] :: r
    else
      match r with
      | [] => [[c]]
      | first :: others => (c :: first) :: others

/-- Result of `verify_bearer_token`: either an `HTTPException(status, detail)`
or the extracted token. -/
inductive AuthResult where
  | httpError (status : Nat) (detail : String)
  | ok (token : List Char)
deriving DecidableEq

/-- `verify_bearer_token` from src/transport/auth.py: reject a missing
`Authorization` header with 401, reject a header not starting with
`"Bearer "` with 401, extract the token as `auth_header.split(" ")[1]`, and
reject with 401 only when a configured token is set (truthy, i.e. non-empty)
and differs from the presented one. -/
def verify_bearer_token (bearer_token : Option (List Char))
    (authHeader : Option (List Char)) : AuthResult :=
  match authHeader with
  | none => .httpError 401 "Authorization header required"
  | some h =>
    if ("Bearer ".toList).isPrefixOf h then
      let token := (pySplitChar ' ' h).getD 1 []
      match bearer_token with
      | some bt =>
        if bt ≠ [] ∧ token ≠ bt then .httpError 401 "Invalid bearer token"
        else .ok token
      | none => .ok token
    else .httpError 401 "Bearer token required"

/-! ## EventDateTime validation (src/tools/schemas.py)

`EventDateTime` declares fields in the order `dateTime`, `date`, `timeZone`.
Pydantic validates fields in declaration order; a field validator without
`always=True` runs only when the field is supplied by the caller, and its
`values` argument holds only the previously validated fields.  A supplied
field value may itself be an explicit `None`, hence `Option (Option String)`
for "supplied?/value".  Values of both fields are modelled as strings. -/

/-- Python truthiness of a value that is either `None` or a string:
`None` and `""` are falsy. -/
def pyTruthy : Option String → Bool
  | none => false
  | some s => s ≠ ""

/-- `dict.get(key)` on the pydantic `values` dict: `None` when the key is
absent, else the stored value (which may itself be `None`). -/
def pyValuesGet (values : List (String × Option String)) (key : String) :
    Option String :=
  (values.lookup key).getD none

/-- The body of `EventDateTime.validate_datetime_or_date` exactly as written:
both checks consult `values.get('date')`. -/
def validate_datetime_or_date (v : Option String)
    (values : List (String × Option String)) : Except String (Option String) :=
  if v = none ∧ ¬ pyTruthy (pyValuesGet values "date") then
    .error "Either dateTime or date must be provided"
  else if v ≠ none ∧ pyTruthy (pyValuesGet values "date") then
    .error "Cannot specify both dateTime and date"
  else .ok v

/-- Pydantic validation of an `EventDateTime` payload.  For each of
`dateTime` and `date` in declaration order: an unsupplied field takes its
`None` default with the validator skipped; a supplied field runs
`validate_datetime_or_date` against the values validated so far. -/
def EventDateTime_validate (dateTime_in date_in tz_in : Option (Option String)) :
    Except String (Option String × Option String × Option String) := do
  let dtVal ← match dateTime_in with
    | none => pure none
    | some v => validate_datetime_or_date v []
  let values₁ : List (String × Option String) := [("dateTime", dtVal)]
  let dateVal ← match date_in with
    | none => pure none
    | some v => validate_datetime_or_date v values₁
  let tzVal := tz_in.getD none
  pure (dtVal, dateVal, tzVal)

/-! ## Quota manager (src/adapters/retry.py, QuotaManager) -/

/-- State of `QuotaManager`; time stamps are rationals standing for
`time.time()` values. -/
structure QuotaManager where
  quota_exceeded_until : Option ℚ
  request_count : Nat
  quota_reset_time : ℚ
deriving DecidableEq

/-- `QuotaManager.handle_quota_exceeded` at current time `now`:
`if retry_after:` (truthy, i.e. present and non-zero) the marker becomes
`now + retry_after`, otherwise `now + 60`; the previous marker is ignored. -/
def handle_quota_exceeded (now : ℚ) (retry_after : Option Int)
    (s : QuotaManager) : QuotaManager :=
  match retry_after with
  | some r =>
    if r ≠ 0 then { s with quota_exceeded_until := some (now + r) }
    else { s with quota_exceeded_until := some (now + 60) }
  | none => { s with quota_exceeded_until := some (now + 60) }

/-! ## Worker pool submission (src/adapters/workers.py)

`WorkerPool.__init__` creates `asyncio.Queue(maxsize=queue_size)` with
`queue_size = 100` by default.  `await queue.put(item)` on a full queue
suspends the caller until a slot frees; only `put_nowait` raises
`asyncio.QueueFull`, so the `except asyncio.QueueFull` branch of
`submit_task` is unreachable. -/

/-- Bounded queue state: the queued task ids and the `maxsize` bound
(`0` meaning unbounded, as in asyncio). -/
structure PoolQueue where
  tasks : List String
  maxsize : Nat
deriving DecidableEq

/-- Outcome of `await queue.put(t)` under asyncio semantics. -/
inductive PutOutcome where
  | completed (q : PoolQueue)
  | suspended
deriving DecidableEq

/-- `asyncio.Queue.put`: suspend while the queue is full, else append. -/
def asyncio_queue_put (q : PoolQueue) (t : String) : PutOutcome :=
  if 0 < q.maxsize ∧ q.maxsize ≤ q.tasks.length then .suspended
  else .completed ⟨q.tasks ++ [t], q.maxsize⟩

/-- Observable outcome of `WorkerPool.submit_task`. -/
inductive SubmitOutcome where
  | returned (taskId : String) (q : PoolQueue)
  | suspends
  | raisesQueueFull
deriving DecidableEq

/-- `WorkerPool.submit_task` (task construction elided): performs
`await self.queue.put(task)` and returns the task id.  The
`except asyncio.QueueFull: raise` branch never fires because `put`
suspends instead of raising. -/
def submit_task (q : PoolQueue) (taskId : String) : SubmitOutcome :=
  match asyncio_queue_put q taskId with
  | .completed q' => .returned taskId q'
  | .suspended => .suspends

/-! ## Retry engine (src/adapters/retry.py, exponential_backoff_retry)

Delays are rationals standing for Python floats.  The behaviour of the
wrapped callable is a trace `Nat → CallOutcome`: what invocation number `i`
does.  The jitter factor drawn on attempt `i` (`0.5 + random.random()*0.5`)
is a parameter `jit : Nat → ℚ`, so theorems hold for every jitter outcome. -/

structure RetryConfig where
  max_retries : Nat
  base_delay : ℚ
  max_delay : ℚ
  exponential_base : ℚ
  jitter : Bool
deriving DecidableEq

/-- `RetryConfig()` defaults from src/adapters/retry.py. -/
def defaultRetryConfig : RetryConfig := ⟨3, 1, 60, 2, true⟩

/-- One invocation of the wrapped callable: success, an
`HttpError` with a status and an optional `retry-after` header value, or
any other exception. -/
inductive CallOutcome (α : Type) where
  | success (v : α)
  | httpError (status : Nat) (retryAfter : Option String)
  | otherError

/-- The error propagated out of the retry loop. -/
inductive RetryError where
  | http (status : Nat) (retryAfter : Option String)
  | other
deriving DecidableEq

/-- Digits to the number they denote. -/
def digitsToNat (ds : List Char) : Nat :=
  ds.foldl (fun a c => a * 10 + (c.toNat - '0'.toNat)) 0

/-- Python's built-in `int(str)` on a header value (modelled: optional
surrounding spaces, an optional sign, then decimal digits; anything else
raises `ValueError`, i.e. `none`). -/
def pyInt? (s : String) : Option Int :=
  let cs := s.toList.dropWhile (· = ' ')
  let cs := (cs.reverse.dropWhile (· = ' ')).reverse
  match cs with
  | [] => none
  | '-' :: ds =>
    if ds ≠ [] ∧ ds.all Char.isDigit then some (-(digitsToNat ds : Int))
    else none
  | '+' :: ds =>
    if ds ≠ [] ∧ ds.all Char.isDigit then some (digitsToNat ds : Int)
    else none
  | ds =>
    if ds.all Char.isDigit then some (digitsToNat ds : Int)
    else none

/-- `delay = min(base_delay * exponential_base ** attempt, max_delay)`,
then `delay *= (0.5 + random.random() * 0.5)` when jitter is on — the drawn
factor being `jit attempt`. -/
def computed_delay (cfg : RetryConfig) (jit : Nat → ℚ) (attempt : Nat) : ℚ :=
  let d := min (cfg.base_delay * cfg.exponential_base ^ attempt) cfg.max_delay
  if cfg.jitter then d * jit attempt else d

/-- The `Retry-After` header adjustment: a truthy header value that parses
as an int raises the delay to `max(delay, retry_after_seconds)`; a parse
failure is swallowed (`except ValueError: pass`). -/
def retry_after_delay (d : ℚ) (ra : Option String) : ℚ :=
  match ra with
  | none => d
  | some s =>
    if s = "" then d
    else
      match pyInt? s with
      | some n => max d (n : ℚ)
      | none => d

/-- `status_code in [400, 401, 403, 404]` — non-retryable. -/
def nonretryable_statuses : List Nat := [400, 401, 403, 404]

/-- `status_code in [429, 500, 502, 503, 504]` — retryable. -/
def retryable_statuses : List Nat := [429, 500, 502, 503, 504]

/-- Observable trace of one run of the retry loop: the propagated result,
how many times the callable was invoked, and the backoff sleeps performed,
in order. -/
structure RetryTrace (α : Type) where
  result : Except RetryError α
  invocations : Nat
  sleeps : List ℚ

/-- The body of `for attempt in range(config.max_retries + 1)` from
`exponential_backoff_retry`; `fuel` is the number of loop iterations left
(`fuel = 0` corresponds to the trailing unreachable
`raise last_exception`). -/
def retry_go (cfg : RetryConfig) (behavior : Nat → CallOutcome α)
    (jit : Nat → ℚ) : Nat → Nat → RetryTrace α
  | _, 0 => ⟨.error .other, 0, []⟩
  | attempt, fuel + 1 =>
    match behavior attempt with
    | .success v => ⟨.ok v, 1, []⟩
    | .httpError st ra =>
      if st ∈ nonretryable_statuses then ⟨.error (.http st ra), 1, []⟩
      else if st ∈ retryable_statuses then
        if cfg.max_retries ≤ attempt then ⟨.error (.http st ra), 1, []⟩
        else
          let d := retry_after_delay (computed_delay cfg jit attempt) ra
          let t := retry_go cfg behavior jit (attempt + 1) fuel
          ⟨t.result, t.invocations + 1, d :: t.sleeps⟩
      else ⟨.error (.http st ra), 1, []⟩
    | .otherError =>
      if cfg.max_retries ≤ attempt then ⟨.error .other, 1, []⟩
      else
        let d := computed_delay cfg jit attempt
        let t := retry_go cfg behavior jit (attempt + 1) fuel
        ⟨t.result, t.invocations + 1, d :: t.sleeps⟩

/-- `exponential_backoff_retry(func, config)`: run the attempt loop from
attempt 0 with `max_retries + 1` iterations available. -/
def exponential_backoff_retry (cfg : RetryConfig)
    (behavior : Nat → CallOutcome α) (jit : Nat → ℚ) : RetryTrace α :=
  retry_go cfg behavior jit 0 (cfg.max_retries + 1)

/-! ## Audit sanitisation (src/services/audit.py) -/

/-- Python `str.lower()` (per-character lowering; the keys involved are
ASCII). -/
def pyLower (s : String) : String := String.mk (s.toList.map Char.toLower)

/-- Python substring containment `p in l` on character lists. -/
def listIsInfix (p l : List Char) : Bool :=
  (List.range (l.length + 1)).any fun i => p.isPrefixOf (l.drop i)

/-- `field.lower() in key.lower()`. -/
def containsSub (key field : String) : Bool :=
  listIsInfix (pyLower field).toList (pyLower key).toList

/-- `sensitive_fields` from `_sanitize_state` / `_sanitize_arguments`. -/
def sensitive_fields : List String :=
  ["password", "token", "secret", "key", "credential"]

/-- A key is redacted iff some sensitive field name occurs in it
(case-insensitively). -/
def isSensitiveKey (key : String) : Bool :=
  sensitive_fields.any fun f => containsSub key f

/-- `AuditLogger._sanitize_state`: `if not state: return None`; then for
each sensitive field and each top-level key containing it, assign the
redaction marker to that key.  Dict-key assignment over unique keys is a
map over the entries; values are never recursed into. -/
def sanitize_state (state : Option (List (String × Json))) :
    Option (List (String × Json)) :=
  match state with
  | none => none
  | some st =>
    if st.isEmpty then none
    else
      some (st.map fun p =>
        if isSensitiveKey p.1 then (p.1, Json.str "***REDACTED***") else p)

/-- `AuditLogger._sanitize_arguments`: same body as `_sanitize_state`. -/
def sanitize_arguments (arguments : Option (List (String × Json))) :
    Option (List (String × Json)) :=
  match arguments with
  | none => none
  | some args =>
    if args.isEmpty then none
    else
      some (args.map fun p =>
        if isSensitiveKey p.1 then (p.1, Json.str "***REDACTED***") else p)

/-! ## Update body construction (src/adapters/calendar.py)

`CommandQueue.enqueue_tool_call` builds the job arguments as
`validated_args.dict()`: pydantic's `.dict()` serialises EVERY declared
field of `UpdateEventSchema`, supplied or not, unsupplied optional fields
carrying their `None` default.  `_build_update_body` then tests field
presence with `'summary' in arguments`. -/

/-- Python truthiness of a JSON value. -/
def jsonTruthy : Json → Bool
  | .null => false
  | .bool b => b
  | .num n => n ≠ 0
  | .str s => s ≠ ""
  | .arr l => !l.isEmpty
  | .obj l => !l.isEmpty

/-- Python `str()` of a leaf value, as used by the `EXDATE:` f-string
(validated exception dates are strings, so compound values never reach
it). -/
def pyStr : Json → String
  | .str s => s
  | .num n => toString n
  | .bool true => "True"
  | .bool false => "False"
  | .null => "None"
  | .arr _ => ""
  | .obj _ => ""

/-- The declared fields of `UpdateEventSchema`, in order. -/
def updateEventFields : List String :=
  ["calendarId", "eventId", "summary", "description", "start", "end",
   "location", "attendees", "visibility", "status", "recurrence",
   "reminders", "conferenceData"]

/-- `validated_args.dict()` for an `update_event` call: one entry per
declared field, the supplied value or the `None` default. -/
def update_validated_dict (provided : List (String × Json)) :
    List (String × Json) :=
  updateEventFields.map fun f => (f, (provided.lookup f).getD .null)

/-- `GoogleCalendarAdapter._convert_datetime`: reads `dt_obj.get(...)`;
applying it to `None` raises `AttributeError`. -/
def convert_datetime : Json → Except String Json
  | .obj l =>
    let get := fun k => ((l.lookup k).getD Json.null)
    .ok (.obj (
      if jsonTruthy (get "dateTime") then
        ("dateTime", get "dateTime") ::
          (if jsonTruthy (get "timeZone") then [("timeZone", get "timeZone")]
           else [])
      else if jsonTruthy (get "date") then [("date", get "date")]
      else []))
  | _ => .error "AttributeError"

/-- One attendee record of `_build_update_body`: subscripting `['email']`
raises `KeyError` when missing; iterating a non-dict raises `TypeError`. -/
def convert_attendee : Json → Except String Json
  | .obj a =>
    match a.lookup "email" with
    | some e =>
      .ok (.obj [("email", e),
        ("displayName", (a.lookup "displayName").getD .null),
        ("optional", (a.lookup "optional").getD (.bool false)),
        ("responseStatus", (a.lookup "responseStatus").getD
          (.str "needsAction")),
        ("comment", (a.lookup "comment").getD .null)])
    | none => .error "KeyError"
  | _ => .error "TypeError"

/-- The recurrence branch: `arguments['recurrence']['rrule']`, extended
with `EXDATE:` strings when `exdate` is truthy. -/
def convert_recurrence : Json → Except String Json
  | .obj r =>
    match r.lookup "rrule" with
    | some (.arr rrule) =>
      match (r.lookup "exdate").getD .null with
      | .arr exl =>
        if exl.isEmpty then .ok (.arr rrule)
        else .ok (.arr (rrule ++ exl.map fun d => .str ("EXDATE:" ++ pyStr d)))
      | ex => if jsonTruthy ex then .error "TypeError" else .ok (.arr rrule)
    | some _ => .error "TypeError"
    | none => .error "KeyError"
  | _ => .error "TypeError"

/-- `GoogleCalendarAdapter._build_update_body`: include exactly the fields
whose keys are present in the argument dict, in source order, translating
`start`/`end`, attendees and recurrence on the way. -/
def build_update_body (arguments : List (String × Json)) :
    Except String (List (String × Json)) := do
  let has := fun k => (arguments.lookup k).isSome
  let get := fun k => (arguments.lookup k).getD Json.null
  let b : List (String × Json) := []
  let b := if has "summary" then b ++ [("summary", get "summary")] else b
  let b := if has "description" then b ++ [("description", get "description")]
    else b
  let b ← if has "start" then do
      let v ← convert_datetime (get "start")
      pure (b ++ [("start", v)])
    else pure b
  let b ← if has "end" then do
      let v ← convert_datetime (get "end")
      pure (b ++ [("end", v)])
    else pure b
  let b := if has "location" then b ++ [("location", get "location")] else b
  let b ← if has "attendees" then
      match get "attendees" with
      | .arr l => do
        let vs ← l.mapM convert_attendee
        pure (b ++ [("attendees", Json.arr vs)])
      | _ => .error "TypeError"
    else pure b
  let b := if has "visibility" then b ++ [("visibility", get "visibility")]
    else b
  let b := if has "status" then b ++ [("status", get "status")] else b
  let b ← if has "recurrence" then do
      let v ← convert_recurrence (get "recurrence")
      pure (b ++ [("recurrence", v)])
    else pure b
  let b := if has "reminders" then b ++ [("reminders", get "reminders")] else b
  let b := if has "conferenceData" then
      b ++ [("conferenceData", get "conferenceData")]
    else b
  pure b

/-- The end-to-end scenario B input: an `update_event` patch supplying only
`summary` besides the required ids. -/
def updateOnlySummaryInput : List (String × Json) :=
  [("calendarId", .str "cal1"), ("eventId", .str "e1"),
   ("summary", .str "New title")]

/-! ## Idempotency key generation (src/router/idempotency.py)

`IdempotencyCache.generate_key` hashes
`json.dumps(key_data, sort_keys=True, default=str)`.  `sort_keys=True`
sorts every object's keys during serialisation; this is embedded as a
canonicalisation pass (recursively sort each object by key — sorting
commutes with serialising the subvalues) followed by in-order rendering. -/

/-- Key order on object entries: compare the keys. -/
def entryLE (a b : String × Json) : Prop := a.1 ≤ b.1

/-- Strict key order on object entries. -/
def entryLT (a b : String × Json) : Prop := a.1 < b.1

instance : DecidableRel entryLE :=
  fun a b => inferInstanceAs (Decidable (a.1 ≤ b.1))

instance : IsTotal (String × Json) entryLE := ⟨fun a b => le_total a.1 b.1⟩

instance : IsTrans (String × Json) entryLE :=
  ⟨fun _ _ _ h h' => le_trans h h'⟩

instance : IsAntisymm (String × Json) entryLT :=
  ⟨fun _ _ h h' => absurd h' (lt_asymm h)⟩

/-- Sort object entries by key (Python's sort; keys are unique in a dict,
so any correct sort produces the same entry list). -/
def sortEntries (l : List (String × Json)) : List (String × Json) :=
  List.insertionSort entryLE l

mutual

/-- Canonical form: every object's entries sorted by key, recursively. -/
def canon : Json → Json
  | .null => .null
  | .bool b => .bool b
  | .num n => .num n
  | .str s => .str s
  | .arr l => .arr (canonList l)
  | .obj l => .obj (sortEntries (canonEntries l))

def canonList : List Json → List Json
  | [] => []
  | j :: t => canon j :: canonList t

def canonEntries : List (String × Json) → List (String × Json)
  | [] => []
  | (k, v) :: t => (k, canon v) :: canonEntries t

end

mutual

/-- In-order JSON rendering (string escaping elided — the values involved
carry no quotes or control characters). -/
def render : Json → String
  | .null => "null"
  | .bool true => "true"
  | .bool false => "false"
  | .num n => toString n
  | .str s => "\"" ++ s ++ "\""
  | .arr l => "[" ++ renderList l ++ "]"
  | .obj l => "\x7b" ++ renderEntries l ++ "\x7d"

def renderList : List Json → String
  | [] => ""
  | [j] => render j
  | j :: t => render j ++ ", " ++ renderList t

def renderEntries : List (String × Json) → String
  | [] => ""
  | [(k, v)] => "\"" ++ k ++ "\": " ++ render v
  | (k, v) :: t => "\"" ++ k ++ "\": " ++ render v ++ ", " ++ renderEntries t

end

/-- `json.dumps(x, sort_keys=True)`: canonicalise, then render. -/
def json_dumps_sorted (j : Json) : String := render (canon j)

/-- Modelled from the spec: stands in for `hashlib.sha256(...).hexdigest()`
(library code outside the repository) — an arbitrary fixed deterministic
function of the serialised string; the claims settled here depend only on
the digest being a function of its input. -/
def sha256_hex (s : String) : String :=
  toString (s.toList.foldl (fun a c => (a * 131 + c.toNat) % 1000000007) 7)

/-- `IdempotencyCache.generate_key`: hash the dict
`{"tool": tool_name, "args": arguments, "user": user_id}` serialised with
sorted keys, under the fixed key-space prefixed namespace. -/
def generate_key (tool_name : String) (arguments : List (String × Json))
    (user_id : Option String) : String :=
  let key_data : Json := .obj
    [("tool", .str tool_name), ("args", .obj arguments),
     ("user", match user_id with | some u => .str u | none => .null)]
  "mcp:idempotency:" ++ sha256_hex (json_dumps_sorted key_data)

mutual

/-- Two JSON values are equal as (nested) key-value mappings: identical
leaves, element-wise equal arrays, and objects that agree up to a
permutation of their (unique-keyed) entry lists — at any nesting depth. -/
inductive MapEq : Json → Json → Prop where
  | null : MapEq .null .null
  | bool (b : Bool) : MapEq (.bool b) (.bool b)
  | num (n : Int) : MapEq (.num n) (.num n)
  | str (s : String) : MapEq (.str s) (.str s)
  | arr {l₁ l₂ : List Json} : MapEqList l₁ l₂ → MapEq (.arr l₁) (.arr l₂)
  | obj {l₁ l₂ l₂' : List (String × Json)} :
      (l₁.map Prod.fst).Nodup → MapEqEntries l₁ l₂' → l₂'.Perm l₂ →
      MapEq (.obj l₁) (.obj l₂)

inductive MapEqList : List Json → List Json → Prop where
  | nil : MapEqList [] []
  | cons {j₁ j₂ : Json} {t₁ t₂ : List Json} :
      MapEq j₁ j₂ → MapEqList t₁ t₂ → MapEqList (j₁ :: t₁) (j₂ :: t₂)

inductive MapEqEntries :
    List (String × Json) → List (String × Json) → Prop where
  | nil : MapEqEntries [] []
  | cons (k : String) {v₁ v₂ : Json} {t₁ t₂ : List (String × Json)} :
      MapEq v₁ v₂ → MapEqEntries t₁ t₂ →
      MapEqEntries ((k, v₁) :: t₁) ((k, v₂) :: t₂)

end

/-! ## Command router enqueue (src/router/queue.py)

`CommandQueue.enqueue_tool_call` validates, fingerprints the RAW arguments,
consults the idempotency cache, and only on a miss dispatches to the
calendar adapter and stores the result.  The validator and the adapter
dispatch (`_process_job`) are passed as function parameters, so theorems
quantify over them; the adapter-call counter increments exactly when the
dispatch function is invoked. -/

/-- `ToolValidator.create_error_response(message, error).dict()`. -/
def error_envelope (message err : String) : List (String × Json) :=
  [("success", .bool false), ("message", .str message),
   ("data", .null), ("error", .str err)]

/-- Router-side state: the idempotency cache entries
(key, stored result, expiry time) and how many adapter dispatches have
happened. -/
structure RouterState where
  cache : List (String × List (String × Json) × ℚ)
  adapterCalls : Nat

/-- `IdempotencyCache.get` backed by Redis `GET`: the stored value while
unexpired, nothing afterwards or for unknown keys. -/
def cache_get (cache : List (String × List (String × Json) × ℚ))
    (key : String) (now : ℚ) : Option (List (String × Json)) :=
  match cache.lookup key with
  | some (r, exp) => if now < exp then some r else none
  | none => none

/-- `IdempotencyCache.set` via `SETEX key ttl value` (default TTL 300 s):
the new binding shadows any previous one. -/
def cache_set (cache : List (String × List (String × Json) × ℚ))
    (key : String) (result : List (String × Json)) (now ttl : ℚ) :
    List (String × List (String × Json) × ℚ) :=
  (key, result, now + ttl) :: cache

/-- The cache-miss tail of `enqueue_tool_call`: dispatch the job through
`_process_job`, cache a truthy result, return it. -/
def process_and_cache
    (process : String → List (String × Json) → List (String × Json))
    (tool : String) (validated : List (String × Json)) (key : String)
    (now ttl : ℚ) (st : RouterState) :
    List (List (String × Json)) × RouterState :=
  let result := process tool validated
  let newCache :=
    if result.isEmpty then st.cache else cache_set st.cache key result now ttl
  ([result], ⟨newCache, st.adapterCalls + 1⟩)

/-- `CommandQueue.enqueue_tool_call`: validate (`validate` returns the
job-argument dict `validated_args.dict()` or a validation error), fingerprint
the raw arguments, return a truthy unexpired cached result as-is, otherwise
dispatch and cache. -/
def enqueue_tool_call
    (validate : String → List (String × Json) →
      Except String (List (String × Json)))
    (process : String → List (String × Json) → List (String × Json))
    (now ttl : ℚ) (tool : String) (args : List (String × Json))
    (user : Option String) (st : RouterState) :
    List (List (String × Json)) × RouterState :=
  match validate tool args with
  | .error e => ([error_envelope ("Validation failed for " ++ tool) e], st)
  | .ok validated =>
    let key := generate_key tool args user
    match cache_get st.cache key now with
    | some cached =>
      if cached.isEmpty then process_and_cache process tool validated key now ttl st
      else ([cached], st)
    | none => process_and_cache process tool validated key now ttl st

/-! ## THEOREMS -/

/-- Splitting a list that does not contain the separator yields the list
itself as the single fragment. -/
theorem pySplitChar_no_sep {sep : Char} {t : List Char} (h : sep ∉ t) :
    pySplitChar sep t = [t] := by
  induction t with
  | nil => rfl
  | cons c rest ih =>
    have hc : c ≠ sep := fun hcs => h (hcs ▸ List.mem_cons_self c rest)
    have hrest : sep ∉ rest := fun hm => h (List.mem_cons_of_mem c hm)
    simp [pySplitChar, hc, ih hrest]

/-- Splitting a well-formed bearer header on spaces: the fragment at index 1
is exactly the token, provided the token itself contains no space. -/
theorem pySplitChar_bearer {t : List Char} (h : ' ' ∉ t) :
    pySplitChar ' ' ('B' :: 'e' :: 'a' :: 'r' :: 'e' :: 'r' :: ' ' :: t) =
      [['B', 'e', 'a', 'r', 'e', 'r'], t] := by
  simp [pySplitChar, pySplitChar_no_sep h]

/-- C10: when no bearer token is configured (unset or empty), every request
with a well-formed `Authorization: Bearer <t>` header is accepted and `t` is
returned; the 401 "Invalid bearer token" rejection happens only with a
non-empty configured token; an absent header or a header not starting with
`"Bearer "` is rejected with 401 under every configuration. -/
theorem verify_bearer_token_spec (cfg cfg' : Option (List Char))
    (hdr t : List Char)
    (hempty : cfg = none ∨ cfg = some [])
    (ht : ' ' ∉ t)
    (hhdr : ("Bearer ".toList).isPrefixOf hdr = false) :
    verify_bearer_token cfg' none = .httpError 401 "Authorization header required" ∧
    verify_bearer_token cfg' (some hdr) = .httpError 401 "Bearer token required" ∧
    verify_bearer_token cfg (some ("Bearer ".toList ++ t)) = .ok t ∧
    (∀ bt tok : List Char, bt ≠ [] → tok ≠ bt → ' ' ∉ tok →
      verify_bearer_token (some bt) (some ("Bearer ".toList ++ tok)) =
        .httpError 401 "Invalid bearer token") := by
  refine ⟨rfl, ?_, ?_, ?_⟩
  · have hh : ¬ (['B', 'e', 'a', 'r', 'e', 'r', ' '] <+: hdr) := by
      intro hp
      have hb : ("Bearer ".toList).isPrefixOf hdr = true :=
        List.isPrefixOf_iff_prefix.mpr hp
      rw [hhdr] at hb
      exact Bool.noConfusion hb
    simp [verify_bearer_token, hh]
  · have hpre : ("Bearer ".toList).isPrefixOf ("Bearer ".toList ++ t) = true := by
      simp [List.isPrefixOf_iff_prefix]
    rcases hempty with h | h <;>
      simp [verify_bearer_token, hpre, pySplitChar_bearer ht, h]
  · intro bt tok hbt hne htok
    have hpre : ("Bearer ".toList).isPrefixOf ("Bearer ".toList ++ tok) = true := by
      simp [List.isPrefixOf_iff_prefix]
    simp [verify_bearer_token, hpre, pySplitChar_bearer htok, hbt, hne]

/-- C2: the code accepts an `EventDateTime` payload supplying both
`dateTime` and `date`, and also one supplying neither, contradicting the
one-of invariant the validator's docstring and the repository's own test
`test_event_datetime_invalid_both` demand: per-field validators skip
unsupplied fields, and the `date` check consults `values.get('date')`
(never present while `date` itself is being validated) instead of
`values.get('dateTime')`. -/
theorem EventDateTime_validate_accepts_invalid :
    EventDateTime_validate (some (some "2024-01-15T10:00:00"))
        (some (some "2024-01-15")) none =
      .ok (some "2024-01-15T10:00:00", some "2024-01-15", none) ∧
    EventDateTime_validate none none none = .ok (none, none, none) := by
  exact ⟨rfl, rfl⟩

/-- C4 counterexample: with the marker at 1000, a call at time 10 carrying
`retry_after = 5` rewrites the marker to 15, strictly earlier than the 1000
it held before the write — the marker is not monotonically non-decreasing. -/
theorem handle_quota_exceeded_moves_backward :
    (handle_quota_exceeded 10 (some 5) ⟨some 1000, 0, 0⟩).quota_exceeded_until
      = some 15 ∧ (15 : ℚ) < 1000 := by
  constructor
  · show some ((10 : ℚ) + (5 : Int)) = some 15
    norm_num
  · norm_num

/-- C4 amended: `handle_quota_exceeded` unconditionally overwrites the
marker — the result is independent of the previous marker value, equals
`now + retry_after` for a non-zero retry-after and `now + 60` when no
retry-after is given; nothing prevents a write from moving it backward. -/
theorem handle_quota_exceeded_overwrites (now : ℚ) (r : Int) (ra : Option Int)
    (s₁ s₂ : QuotaManager) :
    (handle_quota_exceeded now ra s₁).quota_exceeded_until =
      (handle_quota_exceeded now ra s₂).quota_exceeded_until ∧
    (r ≠ 0 →
      (handle_quota_exceeded now (some r) s₁).quota_exceeded_until =
        some (now + r)) ∧
    (handle_quota_exceeded now none s₁).quota_exceeded_until =
      some (now + 60) := by
  refine ⟨?_, ?_, rfl⟩
  · cases ra with
    | none => rfl
    | some r' => by_cases h : r' = 0 <;> simp [handle_quota_exceeded, h]
  · intro h
    simp [handle_quota_exceeded, h]

/-- Witness for the amended C4 theorem at concrete inputs. -/
theorem handle_quota_exceeded_overwrites_witness :
    (handle_quota_exceeded 10 (some 5) ⟨some 1000, 0, 0⟩).quota_exceeded_until
      = some ((10 : ℚ) + (5 : Int)) :=
  (handle_quota_exceeded_overwrites 10 5 (some 5) ⟨some 1000, 0, 0⟩
    ⟨none, 0, 0⟩).2.1 (by decide)

/-- C3: submitting to a full queue (100 of 100 slots used) suspends the
caller until space frees — it does not fail, and no submission ever raises
a queue-full error (`await put` waits; only `put_nowait` raises, so the
`except asyncio.QueueFull` branch is dead). -/
theorem submit_task_full_queue_blocks :
    submit_task ⟨List.replicate 100 "t", 100⟩ "task-new" = .suspends ∧
    ∀ (q : PoolQueue) (i : String), submit_task q i ≠ .raisesQueueFull := by
  constructor
  · simp [submit_task, asyncio_queue_put]
  · intro q i
    unfold submit_task
    cases h : asyncio_queue_put q i <;> simp

/-- Witness for C10 at concrete inputs: config unset, token "abc", a
non-Bearer header "Basic x". -/
theorem verify_bearer_token_spec_witness :
    verify_bearer_token none none = .httpError 401 "Authorization header required" ∧
    verify_bearer_token none (some ("Basic x".toList)) =
      .httpError 401 "Bearer token required" ∧
    verify_bearer_token none (some ("Bearer ".toList ++ "abc".toList)) =
      .ok "abc".toList ∧
    (∀ bt tok : List Char, bt ≠ [] → tok ≠ bt → ' ' ∉ tok →
      verify_bearer_token (some bt) (some ("Bearer ".toList ++ tok)) =
        .httpError 401 "Invalid bearer token") :=
  verify_bearer_token_spec none none ("Basic x".toList) ("abc".toList)
    (Or.inl rfl) (by decide) (by decide)

/-- C5: a callable whose first invocation fails with an HTTP error of status
400, 401, 403 or 404 is invoked exactly once; the error is propagated
immediately and no backoff sleep is performed. -/
theorem retry_non_retryable_single_attempt {α : Type} (cfg : RetryConfig)
    (behavior : Nat → CallOutcome α) (jit : Nat → ℚ)
    (st : Nat) (ra : Option String)
    (hb : behavior 0 = .httpError st ra)
    (hst : st ∈ nonretryable_statuses) :
    exponential_backoff_retry cfg behavior jit =
      ⟨.error (.http st ra), 1, []⟩ := by
  unfold exponential_backoff_retry
  simp [retry_go, hb, hst]

/-- Witness for C5: a callable always failing with status 401 under the
default configuration. -/
theorem retry_non_retryable_single_attempt_witness :
    exponential_backoff_retry defaultRetryConfig
        (fun _ => (CallOutcome.httpError 401 none : CallOutcome Nat))
        (fun _ => (3 : ℚ) / 4) =
      ⟨.error (.http 401 none), 1, []⟩ :=
  retry_non_retryable_single_attempt defaultRetryConfig _ _ 401 none rfl
    (by decide)

/-- C6: on a retryable failure (status 429 or one of the retried 5xx codes)
carrying an integer `retry-after` header, the sleep performed before the
next attempt is exactly `max(computed backoff delay, retry-after)` — in
particular at least the retry-after duration, for every jitter outcome. -/
theorem retry_wait_honors_retry_after {α : Type} (cfg : RetryConfig)
    (behavior : Nat → CallOutcome α) (jit : Nat → ℚ)
    (st : Nat) (s : String) (n : Int)
    (hb : behavior 0 = .httpError st (some s))
    (hst : st ∈ retryable_statuses)
    (hs : s ≠ "")
    (hn : pyInt? s = some n)
    (hmr : 0 < cfg.max_retries) :
    (exponential_backoff_retry cfg behavior jit).sleeps.head? =
      some (max (computed_delay cfg jit 0) (n : ℚ)) ∧
    (n : ℚ) ≤ max (computed_delay cfg jit 0) (n : ℚ) := by
  have hnr : st ∉ nonretryable_statuses := by
    simp only [retryable_statuses, List.mem_cons, List.not_mem_nil,
      or_false] at hst
    rcases hst with rfl | rfl | rfl | rfl | rfl <;> decide
  have hle : ¬ (cfg.max_retries ≤ 0) := by omega
  refine ⟨?_, le_max_right _ _⟩
  unfold exponential_backoff_retry
  simp [retry_go, hb, hnr, hst, hle, retry_after_delay, hs, hn]

/-- Witness for C6: a 429 with `retry-after: "2"` under the default
configuration; the computed jittered delay is ¾ s, the effective sleep 2 s. -/
theorem retry_wait_honors_retry_after_witness :
    (exponential_backoff_retry defaultRetryConfig
        (fun _ => (CallOutcome.httpError 429 (some "2") : CallOutcome Nat))
        (fun _ => (3 : ℚ) / 4)).sleeps.head? =
      some (max (computed_delay defaultRetryConfig (fun _ => (3 : ℚ) / 4) 0)
        ((2 : Int) : ℚ)) ∧
    ((2 : Int) : ℚ) ≤
      max (computed_delay defaultRetryConfig (fun _ => (3 : ℚ) / 4) 0)
        ((2 : Int) : ℚ) :=
  retry_wait_honors_retry_after defaultRetryConfig _ _ 429 "2" 2 rfl
    (by decide) (by decide) (by decide) (by decide)

/-- C9 counterexample: a state whose top-level key is innocuous but whose
nested object holds an `api_token` field passes sanitisation unchanged —
the nested secret-like field is not replaced by the redaction marker, even
though its name is sensitive. -/
theorem sanitize_state_misses_nested :
    sanitize_state
        (some [("outer", Json.obj [("api_token", Json.str "s3cr3t")])]) =
      some [("outer", Json.obj [("api_token", Json.str "s3cr3t")])] ∧
    isSensitiveKey "api_token" = true ∧
    Json.str "s3cr3t" ≠ Json.str "***REDACTED***" := by
  exact ⟨rfl, rfl, by simp⟩

/-- C9 amended: sanitisation replaces exactly the TOP-LEVEL fields whose
names contain a sensitive substring with the fixed marker, omits no field,
leaves non-sensitive top-level fields (nested content included) untouched,
and `_sanitize_arguments` behaves identically. -/
theorem sanitize_top_level_only (st : List (String × Json)) (hne : st ≠ []) :
    (sanitize_state (some st)).isSome = true ∧
    ((sanitize_state (some st)).getD []).map Prod.fst = st.map Prod.fst ∧
    (∀ p ∈ (sanitize_state (some st)).getD [],
      (isSensitiveKey p.1 = true → p.2 = Json.str "***REDACTED***") ∧
      (isSensitiveKey p.1 = false → p ∈ st)) ∧
    sanitize_arguments (some st) = sanitize_state (some st) := by
  have hb : st.isEmpty = false := by
    cases st with
    | nil => exact absurd rfl hne
    | cons a t => rfl
  have hs : sanitize_state (some st) =
      some (st.map fun p =>
        if isSensitiveKey p.1 then (p.1, Json.str "***REDACTED***") else p) := by
    simp [sanitize_state, hb]
  have ha : sanitize_arguments (some st) =
      some (st.map fun p =>
        if isSensitiveKey p.1 then (p.1, Json.str "***REDACTED***") else p) := by
    simp [sanitize_arguments, hb]
  rw [hs, ha]
  refine ⟨rfl, ?_, ?_, rfl⟩
  · simp only [Option.getD_some]
    rw [List.map_map]
    apply List.map_congr_left
    intro p _
    by_cases h : isSensitiveKey p.1 = true <;> simp [h]
  · intro p hp
    simp only [Option.getD_some] at hp
    rcases List.mem_map.mp hp with ⟨q, hq, hfq⟩
    by_cases h : isSensitiveKey q.1 = true
    · rw [if_pos h] at hfq
      cases hfq
      exact ⟨fun _ => rfl, fun hf => absurd h (by simp [hf])⟩
    · rw [if_neg h] at hfq
      cases hfq
      exact ⟨fun ht => absurd ht h, fun _ => hq⟩

/-- Witness for the amended C9 theorem: one sensitive and one plain field. -/
theorem sanitize_top_level_only_witness :
    (sanitize_state
        (some [("password", Json.str "x"), ("summary", Json.str "ok")])).isSome
      = true ∧
    ((sanitize_state
        (some [("password", Json.str "x"),
          ("summary", Json.str "ok")])).getD []).map Prod.fst =
      [("password", Json.str "x"), ("summary", Json.str "ok")].map Prod.fst ∧
    (∀ p ∈ (sanitize_state
        (some [("password", Json.str "x"), ("summary", Json.str "ok")])).getD
          [],
      (isSensitiveKey p.1 = true → p.2 = Json.str "***REDACTED***") ∧
      (isSensitiveKey p.1 = false →
        p ∈ [("password", Json.str "x"), ("summary", Json.str "ok")])) ∧
    sanitize_arguments
        (some [("password", Json.str "x"), ("summary", Json.str "ok")]) =
      sanitize_state
        (some [("password", Json.str "x"), ("summary", Json.str "ok")]) :=
  sanitize_top_level_only
    [("password", Json.str "x"), ("summary", Json.str "ok")] (by simp)

/-- C1: the router hands the adapter `validated_args.dict()`, in which every
`UpdateEventSchema` field key is present (unsupplied ones as `None`), so for
a patch supplying only `summary` the presence tests of `_build_update_body`
all succeed and the construction crashes in `_convert_datetime(None)` — the
adapter-bound body is never the claimed exactly-`summary` dict.  On the
sparse dict actually intended (only the supplied keys), the same
`_build_update_body` does produce exactly the `summary` field. -/
theorem build_update_body_router_dict :
    build_update_body (update_validated_dict updateOnlySummaryInput) =
      .error "AttributeError" ∧
    build_update_body updateOnlySummaryInput =
      .ok [("summary", Json.str "New title")] :=
  ⟨rfl, rfl⟩

/-- `canonEntries` is a map over entries, canonicalising each value. -/
theorem canonEntries_eq_map (l : List (String × Json)) :
    canonEntries l = l.map fun p => (p.1, canon p.2) := by
  induction l with
  | nil => rfl
  | cons p t ih =>
    obtain ⟨k, v⟩ := p
    simp [canonEntries, ih]

/-- Sorting by key maps permuted entry lists with duplicate-free keys to
the same list. -/
theorem sortEntries_eq_of_perm {l₁ l₂ : List (String × Json)}
    (hp : l₁.Perm l₂) (hn : (l₁.map Prod.fst).Nodup) :
    sortEntries l₁ = sortEntries l₂ := by
  have hperm : (sortEntries l₁).Perm (sortEntries l₂) :=
    (List.perm_insertionSort entryLE l₁).trans
      (hp.trans (List.perm_insertionSort entryLE l₂).symm)
  have hn₁ : ((sortEntries l₁).map Prod.fst).Nodup :=
    (((List.perm_insertionSort entryLE l₁).map Prod.fst).nodup_iff).mpr hn
  have hn₂ : ((sortEntries l₂).map Prod.fst).Nodup :=
    (((List.perm_insertionSort entryLE l₂).map Prod.fst).nodup_iff).mpr
      (((hp.map Prod.fst).nodup_iff).mp hn)
  have hps₁ : (sortEntries l₁).Pairwise entryLT :=
    ((List.sorted_insertionSort entryLE l₁).and
      (List.pairwise_map.mp hn₁)).imp
        (fun h => lt_of_le_of_ne h.1 h.2)
  have hps₂ : (sortEntries l₂).Pairwise entryLT :=
    ((List.sorted_insertionSort entryLE l₂).and
      (List.pairwise_map.mp hn₂)).imp
        (fun h => lt_of_le_of_ne h.1 h.2)
  exact List.eq_of_perm_of_sorted hperm hps₁ hps₂

/-- Pointwise map-equal entry lists carry the same keys in the same
order. -/
theorem mapEqEntries_keys : ∀ {l₁ l₂ : List (String × Json)},
    MapEqEntries l₁ l₂ → l₁.map Prod.fst = l₂.map Prod.fst
  | _, _, .nil => rfl
  | _, _, .cons k _ ht => congrArg (List.cons k) (mapEqEntries_keys ht)

mutual

/-- Values equal as nested mappings share their canonical form. -/
theorem canon_congr : ∀ {j₁ j₂ : Json}, MapEq j₁ j₂ → canon j₁ = canon j₂
  | _, _, .null => rfl
  | _, _, .bool _ => rfl
  | _, _, .num _ => rfl
  | _, _, .str _ => rfl
  | _, _, .arr h => congrArg Json.arr (canonList_congr h)
  | _, _, @MapEq.obj l₁ l₂ l₂' hn he hp => by
    have h1 : canonEntries l₁ = canonEntries l₂' := canonEntries_congr he
    have hkeys : l₁.map Prod.fst = l₂'.map Prod.fst := mapEqEntries_keys he
    have hperm : (canonEntries l₂').Perm (canonEntries l₂) := by
      rw [canonEntries_eq_map, canonEntries_eq_map]
      exact hp.map _
    have hk2 : (canonEntries l₂').map Prod.fst = l₂'.map Prod.fst := by
      rw [canonEntries_eq_map, List.map_map]
      rfl
    have hn' : ((canonEntries l₂').map Prod.fst).Nodup := by
      rw [hk2, ← hkeys]
      exact hn
    show Json.obj (sortEntries (canonEntries l₁)) =
      Json.obj (sortEntries (canonEntries l₂))
    rw [h1, sortEntries_eq_of_perm hperm hn']

theorem canonList_congr : ∀ {l₁ l₂ : List Json},
    MapEqList l₁ l₂ → canonList l₁ = canonList l₂
  | _, _, .nil => rfl
  | _, _, .cons h ht =>
    congrArg₂ List.cons (canon_congr h) (canonList_congr ht)

theorem canonEntries_congr : ∀ {l₁ l₂ : List (String × Json)},
    MapEqEntries l₁ l₂ → canonEntries l₁ = canonEntries l₂
  | _, _, .nil => rfl
  | _, _, .cons k h ht =>
    congrArg₂ List.cons (congrArg (Prod.mk k) (canon_congr h))
      (canonEntries_congr ht)

end

/-- Canonicalising the fingerprint payload dict sorts its three entries and
canonicalises the argument object in place. -/
theorem key_data_canon (tool : String) (args user : Json) :
    canon (Json.obj [("tool", .str tool), ("args", args), ("user", user)]) =
      Json.obj (sortEntries
        [("tool", .str tool), ("args", canon args), ("user", canon user)]) :=
  rfl

/-- C8: `generate_key` is a pure function (hence deterministic), and two
argument dicts equal as key-value mappings — allowing different key
enumeration orders at any nesting depth — produce the same idempotency
key, for every operation name and caller identity. -/
theorem generate_key_order_independent (tool : String)
    (args₁ args₂ : List (String × Json)) (user : Option String)
    (h : MapEq (.obj args₁) (.obj args₂)) :
    generate_key tool args₁ user = generate_key tool args₂ user := by
  have hc : canon (Json.obj args₁) = canon (Json.obj args₂) := canon_congr h
  simp only [generate_key, json_dumps_sorted, key_data_canon, hc]

/-- Witness for C8: the same two-field argument dict with a reordered
nested object, enumerated in two different orders. -/
theorem generate_key_order_independent_witness :
    generate_key "update_event"
      [("b", Json.num 2),
       ("a", Json.obj [("y", Json.num 1), ("x", Json.num 0)])]
      (some "caller") =
    generate_key "update_event"
      [("a", Json.obj [("x", Json.num 0), ("y", Json.num 1)]),
       ("b", Json.num 2)]
      (some "caller") :=
  generate_key_order_independent "update_event" _ _ (some "caller")
    (MapEq.obj (by decide)
      (MapEqEntries.cons "b" (MapEq.num 2)
        (MapEqEntries.cons "a"
          (MapEq.obj (by decide)
            (MapEqEntries.cons "y" (MapEq.num 1)
              (MapEqEntries.cons "x" (MapEq.num 0) MapEqEntries.nil))
            (List.Perm.swap _ _ _))
          MapEqEntries.nil))
      (List.Perm.swap _ _ _))

/-- C7: a call whose idempotency key holds a stored (truthy) unexpired
cache entry returns exactly the stored result and leaves the router state
untouched — in particular the conclusion holds for every adapter dispatch
function and the adapter-call counter is unchanged, so no adapter method is
invoked. -/
theorem enqueue_cached_skips_adapter
    (validate : String → List (String × Json) →
      Except String (List (String × Json)))
    (process : String → List (String × Json) → List (String × Json))
    (now ttl : ℚ) (tool : String) (args : List (String × Json))
    (user : Option String) (st : RouterState)
    (v r : List (String × Json))
    (hval : validate tool args = .ok v)
    (hcache : cache_get st.cache (generate_key tool args user) now = some r)
    (hr : r.isEmpty = false) :
    enqueue_tool_call validate process now ttl tool args user st = ([r], st) := by
  simp [enqueue_tool_call, hval, hcache, hr]

/-- Witness for C7: a concrete `delete_event` repeat whose key was stored
with 100 s of TTL left; the adapter parameter is a function whose result
differs from the cached one, and the cached one is returned. -/
theorem enqueue_cached_skips_adapter_witness :
    enqueue_tool_call (fun _ a => .ok a)
      (fun _ _ => [("success", Json.bool true), ("message", Json.str "fresh")])
      0 300 "delete_event"
      [("calendarId", Json.str "c1"), ("eventId", Json.str "e1")] none
      ⟨[(generate_key "delete_event"
          [("calendarId", Json.str "c1"), ("eventId", Json.str "e1")] none,
        [("success", Json.bool true), ("message", Json.str "cached")], 100)], 0⟩ =
      ([[("success", Json.bool true), ("message", Json.str "cached")]],
        ⟨[(generate_key "delete_event"
            [("calendarId", Json.str "c1"), ("eventId", Json.str "e1")] none,
          [("success", Json.bool true), ("message", Json.str "cached")], 100)],
          0⟩) :=
  enqueue_cached_skips_adapter (fun _ a => .ok a)
    (fun _ _ => [("success", Json.bool true), ("message", Json.str "fresh")])
    0 300 "delete_event"
    [("calendarId", Json.str "c1"), ("eventId", Json.str "e1")] none
    ⟨[(generate_key "delete_event"
        [("calendarId", Json.str "c1"), ("eventId", Json.str "e1")] none,
      [("success", Json.bool true), ("message", Json.str "cached")], 100)], 0⟩
    [("calendarId", Json.str "c1"), ("eventId", Json.str "e1")]
    [("success", Json.bool true), ("message", Json.str "cached")]
    rfl (by simp [cache_get]) rfl

end MCPServer
